import Mathlib

/-!
Verification of the buffering / synchronization pipeline of the
video-player-rs repository (src/src/main.rs), shallowly embedded in Lean.

External collaborators (ffmpeg demuxer/decoders, SDL sinks, the wall clock)
are out of scope per the specification; they appear as parameters
(oracle functions for decode, an explicit elapsed time for the clock).
Everything else is translated directly from the source.
-/

namespace VideoPlayer

/-- A compressed unit (ffmpeg Packet), abstracted to an identifier.
The payload is opaque to the pipeline. -/
structure Packet where
  id : Nat
deriving DecidableEq, Repr

/-- A decoded frame (ffmpeg frame::Video / frame::Audio): the pipeline only
inspects its optional presentation timestamp (frame.pts()). -/
structure Frame where
  pts : Option Int
  data : Nat
deriving DecidableEq, Repr

/-- frame::Video::empty() / frame::Audio::empty(): a freshly allocated frame,
which carries no presentation timestamp. -/
def Frame.empty : Frame := ⟨none, 0⟩

/-- PlayerBuffer (main.rs lines 131-160): a VecDeque of packets plus an
ended flag. The compressed-unit queue of the pipeline. -/
structure PlayerBuffer where
  buffer : List Packet
  ended : Bool
deriving DecidableEq, Repr

/-- PlayerBuffer::new (lines 138-143). -/
def PlayerBuffer.new : PlayerBuffer := ⟨[], false⟩

/-- PlayerBuffer::push_packet (lines 145-147): push_back, unconditionally. -/
def PlayerBuffer.push_packet (b : PlayerBuffer) (p : Packet) : PlayerBuffer :=
  { b with buffer := b.buffer ++ [p] }

/-- PlayerBuffer::endOfFile (lines 153-155). -/
def PlayerBuffer.endOfFile (b : PlayerBuffer) : PlayerBuffer :=
  { b with ended := true }

/-- PlayerBuffer::has_ended (lines 157-159). -/
def PlayerBuffer.has_ended (b : PlayerBuffer) : Bool :=
  b.buffer.isEmpty && b.ended

/-- buffer.packets().pop_front() as used by the decode threads
(lines 289, 316). -/
def PlayerBuffer.pop_front (b : PlayerBuffer) : Option Packet × PlayerBuffer :=
  match b.buffer with
  | [] => (none, b)
  | p :: rest => (some p, { b with buffer := rest })

/-- VideoRenderingBuffer (lines 103-115): a VecDeque of decoded frames. -/
structure VideoRenderingBuffer where
  frames : List Frame
deriving DecidableEq, Repr

/-- VideoRenderingBuffer::is_full (lines 108-110). -/
def VideoRenderingBuffer.is_full (b : VideoRenderingBuffer) : Bool :=
  decide (b.frames.length ≥ 10)

/-- VideoRenderingBuffer::is_empty (lines 112-114). -/
def VideoRenderingBuffer.is_empty (b : VideoRenderingBuffer) : Bool :=
  decide (b.frames.length = 0)

/-- AudioRenderingBuffer (lines 117-129), identical to the video one. -/
structure AudioRenderingBuffer where
  frames : List Frame
deriving DecidableEq, Repr

/-- AudioRenderingBuffer::is_full (lines 122-124). -/
def AudioRenderingBuffer.is_full (b : AudioRenderingBuffer) : Bool :=
  decide (b.frames.length ≥ 10)

/-- AudioRenderingBuffer::is_empty (lines 126-128). -/
def AudioRenderingBuffer.is_empty (b : AudioRenderingBuffer) : Bool :=
  decide (b.frames.length = 0)

/-! ## Timestamp clock -/

/-- Rust cast from f64 to u64 (as used in Duration::from_millis(pts as u64),
line 432): truncation toward zero, saturating at 0 and u64::MAX. The
floating-point value is modelled by the exact rational it denotes. -/
def f64_to_u64_sat (q : ℚ) : ℕ :=
  min (Int.toNat ⌊q⌋) (2 ^ 64 - 1)

/-- Player::should_render_frame (lines 424-439). The elapsed playback time
(Instant::now().duration_since(playback_start_time)) is passed in
nanoseconds; the pts-derived deadline is computed in milliseconds
(pts * time_base * 1000 cast to u64) and the comparison
playback_time_elapsed > show_time is at Duration precision, hence a strict
comparison of nanoseconds. Returns false when the frame has no pts. -/
def should_render_frame (pts : Option Int) (time_base : ℚ) (elapsed_ns : ℕ) : Bool :=
  match pts with
  | some p =>
      let show_time_ms : ℕ := f64_to_u64_sat ((p : ℚ) * time_base * 1000)
      decide (elapsed_ns > show_time_ms * 1000000)
  | none => false

/-- Modelled from the spec for comparison (refinement check of the clock
contract, spec section 4.2): deadline = presentation_timestamp * time_base in
seconds, presented exactly when now - origin >= deadline; false without pts. -/
def spec_should_present (pts : Option Int) (time_base : ℚ) (elapsed_ns : ℕ) : Bool :=
  match pts with
  | some p => decide ((elapsed_ns : ℚ) / 1000000000 ≥ (p : ℚ) * time_base)
  | none => false

/-! ## Presentation scheduler tick -/

/-- One per-track block of the tick loop (video block lines 352-362, audio
block lines 365-373): peek the front of the rendering buffer; if
should_render_frame approves, pop and present it; otherwise leave the buffer
untouched and present nothing. Returns the new buffer and the frame handed
to the sink, if any. -/
def rendering_tick (b : List Frame) (time_base : ℚ) (elapsed_ns : ℕ) :
    List Frame × Option Frame :=
  match b with
  | [] => ([], none)
  | f :: rest =>
      if should_render_frame f.pts time_base elapsed_ns then (rest, some f)
      else (f :: rest, none)

/-- Iterated scheduler ticks over a list of observed elapsed times: returns
the final buffer and the list of frames presented, in order. -/
def rendering_run (b : List Frame) (time_base : ℚ) (ts : List ℕ) :
    List Frame × List Frame :=
  match ts with
  | [] => (b, [])
  | t :: rest =>
      match rendering_tick b time_base t with
      | (b1, some f) =>
          let r := rendering_run b1 time_base rest
          (r.1, f :: r.2)
      | (b1, none) => rendering_run b1 time_base rest

/-! ## Track decoder -/

/-- The panic message of the expect in PlayerVideoDecoder::decode_video_packet
(line 179). -/
def videoSendFailureMsg : String := "Failed to send packet to video decoder"

/-- PlayerVideoDecoder::decode_video_packet (lines 175-187). The external
ffmpeg decoder is abstracted by two oracles: send_ok says whether
send_packet succeeds for a packet, receive_frame gives the raw frame
receive_frame yields, if any. The source panics (expect) when send fails
— modelled as Except.error; when receive_frame yields nothing, the error is
swallowed (.ok()) and the still-empty frame is returned. -/
def decode_video_packet (send_ok : Packet → Bool) (receive_frame : Packet → Option Frame)
    (p : Packet) : Except String Frame :=
  if send_ok p then
    Except.ok ((receive_frame p).getD Frame.empty)
  else
    Except.error videoSendFailureMsg

/-- One iteration of decode_video_thread (lines 283-299): pop a packet from
the compressed buffer if present, decode it, and push the resulting frame
(whatever it is) onto the rendering buffer. A panic in decoding propagates
as Except.error. -/
def decode_video_step (send_ok : Packet → Bool) (receive_frame : Packet → Option Frame)
    (pb : PlayerBuffer) (rb : List Frame) : Except String (PlayerBuffer × List Frame) :=
  match pb.pop_front with
  | (none, pb1) => Except.ok (pb1, rb)
  | (some p, pb1) =>
      match decode_video_packet send_ok receive_frame p with
      | Except.ok f => Except.ok (pb1, rb ++ [f])
      | Except.error e => Except.error e

/-- The decode worker run over a whole packet sequence: the frames pushed to
the rendering buffer, in order, or the panic that terminated the worker. -/
def decode_video_run (send_ok : Packet → Bool) (receive_frame : Packet → Option Frame) :
    List Packet → Except String (List Frame)
  | [] => Except.ok []
  | p :: ps =>
      match decode_video_packet send_ok receive_frame p with
      | Except.ok f =>
          match decode_video_run send_ok receive_frame ps with
          | Except.ok fs => Except.ok (f :: fs)
          | Except.error e => Except.error e
      | Except.error e => Except.error e

/-! ## Demux feeder (buffer_thread) -/

/-- The panic message of the unrecognized-stream arm (line 260). -/
def unknownStreamMsg : String := "unrecognized stream index for packet"

/-- State of the buffer_thread loop: the packets the external demuxer will
still yield (each with its stream index), and the two compressed buffers. -/
structure FeederState where
  input : List (Nat × Packet)
  video : PlayerBuffer
  audio : PlayerBuffer
deriving DecidableEq, Repr

/-- One iteration of the buffer_thread loop body (lines 244-274), with vidx
and aidx the video/audio stream indices from the asset metadata.
Except.error models the panic on an unrecognized stream index;
some s means the loop continues with state s; none would mean the loop
exited normally — which no arm of the source does: on exhaustion both
buffers are marked endOfFile and the loop continues. -/
def buffer_thread_body (vidx aidx : Nat) (s : FeederState) :
    Except String (Option FeederState) :=
  match s.input with
  | (idx, p) :: rest =>
      if idx = vidx then
        Except.ok (some { s with input := rest, video := s.video.push_packet p })
      else if idx = aidx then
        Except.ok (some { s with input := rest, audio := s.audio.push_packet p })
      else Except.error unknownStreamMsg
  | [] =>
      Except.ok (some { s with video := s.video.endOfFile, audio := s.audio.endOfFile })

/-- Running the buffer_thread loop for a given number of iterations:
ok (some s) means still running in state s after the fuel is spent,
ok none would mean the loop terminated normally, error means it panicked. -/
def feeder_run (vidx aidx : Nat) : Nat → FeederState → Except String (Option FeederState)
  | 0, s => Except.ok (some s)
  | n + 1, s =>
      match buffer_thread_body vidx aidx s with
      | Except.ok (some s1) => feeder_run vidx aidx n s1
      | Except.ok none => Except.ok none
      | Except.error e => Except.error e

/-! ## Playback session tick-loop exit -/

/-- The state inspected by the end-of-playback check of Player::play. -/
structure SessionState where
  video_rb : List Frame
  audio_rb : List Frame
  video_pb : PlayerBuffer
  audio_pb : PlayerBuffer
deriving DecidableEq, Repr

/-- The exit condition of the close-if-we-reached-EOF block
(lines 387-399): the loop returns iff both rendering buffers are empty.
The has_ended() results of the packet buffers are computed into the unused
bindings vb and ab and never tested, so they do not appear here. -/
def eof_check_exits (s : SessionState) : Bool :=
  VideoRenderingBuffer.is_empty ⟨s.video_rb⟩ && AudioRenderingBuffer.is_empty ⟨s.audio_rb⟩

/-- The natural-drain condition the specification states for ending the
session: both decoded queues empty and both compressed queues drained. -/
def session_fully_drained (s : SessionState) : Bool :=
  VideoRenderingBuffer.is_empty ⟨s.video_rb⟩ && AudioRenderingBuffer.is_empty ⟨s.audio_rb⟩ &&
    s.video_pb.has_ended && s.audio_pb.has_ended

/-- How a pass through the tick loop of Player::play (lines 350-403) can
exit. The loop has exactly two exits: the break on a Quit/Escape event
(cancellation, lines 376-385) and the return of the
close-if-we-reached-EOF block (lines 387-399). No arm of the loop exits
with an error. -/
inductive SessionExit where
  | cancelled
  | returnedNormally
deriving DecidableEq, Repr

/-- Exit decision of one pass through the Player::play tick loop, given the
buffer state after this pass's render blocks and whether the event pump
yielded Quit/Escape. The worker threads spawned at lines 239, 277 and 303
are never joined and the loop never consults their JoinHandles, so a panic
in a worker — such as the unrecognized-stream panic of buffer_thread —
never reaches this loop; faithfully to that, the feeder outcome is taken
as an argument and ignored. -/
def session_tick_exit (_feeder_outcome : Except String (Option FeederState))
    (quit : Bool) (s : SessionState) : Option SessionExit :=
  if quit then some SessionExit.cancelled
  else if eof_check_exits s then some SessionExit.returnedNormally
  else none

/-! ## Bounded-queue operation sequences (for drain monotonicity) -/

/-- An operation on a PlayerBuffer, as performed by the pipeline threads. -/
inductive BufOp where
  | push (p : Packet)
  | pop
  | markEOS
deriving DecidableEq, Repr

/-- Effect of one operation on the buffer state. -/
def BufOp.apply (b : PlayerBuffer) : BufOp → PlayerBuffer
  | BufOp.push p => b.push_packet p
  | BufOp.pop => (b.pop_front).2
  | BufOp.markEOS => b.endOfFile

/-- Whether an operation is a push. -/
def BufOp.isPush : BufOp → Bool
  | BufOp.push _ => true
  | _ => false

/-- Run a sequence of buffer operations. -/
def runOps (b : PlayerBuffer) (ops : List BufOp) : PlayerBuffer :=
  ops.foldl BufOp.apply b

/-! ## Shared helper lemmas -/

/-- A scheduler tick leaves a buffer whose head frame carries no
presentation timestamp completely untouched and presents nothing. -/
theorem rendering_tick_undated (u : Frame) (rest : List Frame) (tb : ℚ) (t : ℕ)
    (h : u.pts = none) : rendering_tick (u :: rest) tb t = (u :: rest, none) := by
  simp [rendering_tick, should_render_frame, h]

/-! ## Claim C1 -/

/-- Claim C1 (code bug evidence): at a session state where both rendering
buffers are empty but the video packet buffer still holds an unprocessed
packet with end-of-file unset, the close-if-we-reached-EOF check of
Player::play fires and the loop returns, although the pipeline is not
drained end to end. The has_ended() values are computed into the unused
bindings vb and ab and never tested. -/
theorem C1_code_evidence :
    eof_check_exits ⟨[], [], ⟨[⟨0⟩], false⟩, PlayerBuffer.new⟩ = true ∧
    PlayerBuffer.has_ended ⟨[⟨0⟩], false⟩ = false ∧
    session_fully_drained ⟨[], [], ⟨[⟨0⟩], false⟩, PlayerBuffer.new⟩ = false := by
  refine ⟨rfl, rfl, rfl⟩

/-! ## Claim C2 -/

/-- Claim C2 counterexample: a push issued while the compressed-unit queue
already holds 10 items does not block and enlarges the queue to 11 items,
so the capacity bound of 10 is violated. -/
theorem C2_counterexample :
    ((List.range 10).map Packet.mk).length = 10 ∧
    (PlayerBuffer.push_packet ⟨(List.range 10).map Packet.mk, false⟩ ⟨10⟩).buffer.length
      = 11 := by
  refine ⟨rfl, rfl⟩

/-- Claim C2 amended: no queue enforces the capacity of 10. push_packet
appends unconditionally, so any sequence of pushes grows the queue by
exactly its length (unbounded growth, no blocking); the rendering buffers
merely offer an is_full predicate (length at least 10) that nothing in the
pipeline consults. -/
theorem C2_amended :
    (∀ (b : PlayerBuffer) (ps : List Packet),
        (ps.foldl PlayerBuffer.push_packet b).buffer.length
          = b.buffer.length + ps.length) ∧
    (∀ (rb : VideoRenderingBuffer), rb.is_full = decide (rb.frames.length ≥ 10)) := by
  constructor
  · intro b ps
    induction ps generalizing b with
    | nil => simp
    | cons p ps ih =>
        rw [List.foldl_cons, ih]
        simp only [PlayerBuffer.push_packet, List.length_append, List.length_cons,
          List.length_nil]
        omega
  · intro rb
    rfl

/-! ## Claim C4 -/

/-- Claim C4 counterexample: with an undated frame at the head of the
decoded queue, a scheduler tick does not pop it — the buffer is unchanged
(and in particular nonempty), contradicting the claim that the undated head
is popped and discarded. -/
theorem C4_counterexample :
    rendering_tick [Frame.empty] 1 1000000000000 = ([Frame.empty], none) ∧
    ([Frame.empty] : List Frame) ≠ [] := by
  refine ⟨rfl, by simp⟩

/-- Claim C4 amended: an undated head unit is indeed never handed to a sink,
regardless of the clock state, but it is not popped and discarded: the
scheduler leaves the queue untouched. -/
theorem C4_amended (u : Frame) (rest : List Frame) (tb : ℚ) (t : ℕ)
    (h : u.pts = none) :
    rendering_tick (u :: rest) tb t = (u :: rest, none) :=
  rendering_tick_undated u rest tb t h

/-- Witness for the amended claim C4 at a concrete input: an undated frame
ahead of a long-overdue dated frame; the tick presents nothing and leaves
both queued. -/
theorem C4_amended_witness :
    rendering_tick [Frame.empty, ⟨some 0, 1⟩] 1 5000000000
      = ([Frame.empty, ⟨some 0, 1⟩], none) :=
  C4_amended Frame.empty [⟨some 0, 1⟩] 1 5000000000 rfl

/-! ## Claim C5 -/

/-- Claim C5 counterexample: when the external decode transform yields no
frame for a packet (send succeeds, receive yields none), the decode thread
still pushes a frame — the empty frame — onto the rendering buffer,
contradicting the claim that nothing is pushed in that case. -/
theorem C5_counterexample :
    decode_video_step (fun _ => true) (fun _ => none) ⟨[⟨0⟩], false⟩ []
      = Except.ok (⟨[], false⟩, [Frame.empty]) ∧
    ([Frame.empty] : List Frame) ≠ [] := by
  refine ⟨rfl, by simp⟩

/-- Claim C5 amended: for every compressed unit the thread consumes whose
send_packet call succeeds, exactly one frame is pushed onto the decoded
queue — the transform output when one is produced, and the empty frame when
the transform yields none; the absence of output is not treated as an
error, but it does not suppress the push. -/
theorem C5_amended (send_ok : Packet → Bool) (receive_frame : Packet → Option Frame)
    (p : Packet) (rest : List Packet) (e : Bool) (rb : List Frame)
    (h : send_ok p = true) :
    decode_video_step send_ok receive_frame ⟨p :: rest, e⟩ rb
      = Except.ok (⟨rest, e⟩, rb ++ [(receive_frame p).getD Frame.empty]) := by
  simp [decode_video_step, PlayerBuffer.pop_front, decode_video_packet, h]

/-- Witness for the amended claim C5 at a concrete input where the transform
yields no frame: the empty frame is pushed. -/
theorem C5_amended_witness :
    decode_video_step (fun _ => true) (fun _ => none) ⟨[⟨3⟩], false⟩ [⟨some 1, 7⟩]
      = Except.ok (⟨[], false⟩, [⟨some 1, 7⟩] ++ [Frame.empty]) :=
  C5_amended (fun _ => true) (fun _ => none) ⟨3⟩ [] false [⟨some 1, 7⟩] rfl

/-! ## Claim C3 -/

/-- Claim C3 counterexample: an input stream of two packets where the first
fails to decode (its send_packet call fails) and the second would decode
fine. The worker terminates immediately with the send-failure panic; the
successfully decodable second unit never reaches the output, contradicting
the claim that the worker skips the failing unit and continues. -/
theorem C3_counterexample :
    decode_video_run (fun p => decide (p.id ≠ 0))
        (fun p => some ⟨some (p.id : Int), p.id⟩) [⟨0⟩, ⟨1⟩]
      = Except.error videoSendFailureMsg := by
  rfl

/-- Claim C3 amended: a unit whose send_packet call fails panics and
terminates the worker. When every send succeeds the worker does continue,
but a unit for which receive_frame yields nothing is not skipped: exactly
one frame per consumed unit is pushed — the decoded frame, or the empty
frame on receive failure — so successfully decoded units appear in their
original relative order, interleaved with empty placeholder frames. -/
theorem C3_amended (send_ok : Packet → Bool) (receive_frame : Packet → Option Frame)
    (ps : List Packet) (h : ∀ p ∈ ps, send_ok p = true) :
    decode_video_run send_ok receive_frame ps
      = Except.ok (ps.map (fun p => (receive_frame p).getD Frame.empty)) := by
  induction ps with
  | nil => rfl
  | cons p ps ih =>
      have hp : send_ok p = true := h p (by simp)
      have hrest : ∀ q ∈ ps, send_ok q = true := by
        intro q hq
        exact h q (by simp [hq])
      simp [decode_video_run, decode_video_packet, hp, ih hrest]

/-- Witness for the amended claim C3: two packets, both sends succeeding,
the second yielding no frame from the transform; the run emits the decoded
first frame followed by the empty frame, in order. -/
theorem C3_amended_witness :
    decode_video_run (fun _ => true)
        (fun p => if p.id = 0 then some ⟨some 0, 5⟩ else none) [⟨0⟩, ⟨1⟩]
      = Except.ok [⟨some 0, 5⟩, Frame.empty] := by
  simpa using C3_amended (fun _ => true)
    (fun p => if p.id = 0 then some ⟨some 0, 5⟩ else none) [⟨0⟩, ⟨1⟩]
    (by intro p hp; rfl)

/-! ## Claim C6 -/

/-- A buffer already marked ended is unchanged by endOfFile. -/
theorem endOfFile_of_ended (b : PlayerBuffer) (h : b.ended = true) :
    b.endOfFile = b := by
  cases b with
  | mk buf e =>
      simp only [PlayerBuffer.endOfFile]
      simp only at h
      simp [h]

/-- A feeder state with exhausted input and both buffers already marked
ended is a fixpoint of the loop: for any fuel, the loop is still running in
that very state — it never exits. -/
theorem feeder_run_fixpoint (vidx aidx : Nat) (n : Nat) (v a : List Packet) :
    feeder_run vidx aidx n ⟨[], ⟨v, true⟩, ⟨a, true⟩⟩
      = Except.ok (some ⟨[], ⟨v, true⟩, ⟨a, true⟩⟩) := by
  induction n with
  | zero => rfl
  | succ n ih =>
      simpa [feeder_run, buffer_thread_body, PlayerBuffer.endOfFile] using ih

/-- Claim C6 counterexample: starting the feeder on an exhausted
demultiplexer, after five loop iterations the loop is still running (it has
not stopped) in the state with both compressed queues marked ended; and one
further body iteration from that state loops straight back to it,
re-invoking endOfFile — so end-of-stream is not marked exactly once and the
loop never terminates, contradicting the claim that the feeder then stops. -/
theorem C6_counterexample :
    feeder_run 0 1 5 ⟨[], PlayerBuffer.new, PlayerBuffer.new⟩
      = Except.ok (some ⟨[], ⟨[], true⟩, ⟨[], true⟩⟩) ∧
    buffer_thread_body 0 1 ⟨[], ⟨[], true⟩, ⟨[], true⟩⟩
      = Except.ok (some ⟨[], ⟨[], true⟩, ⟨[], true⟩⟩) := by
  refine ⟨rfl, rfl⟩

/-- Claim C6 amended: when the demultiplexer is exhausted the feeder does
mark end-of-stream on both compressed queues — from the first exhausted
iteration on, both ended flags are set — but the marking is repeated
idempotently on every subsequent iteration rather than happening exactly
once, and the loop never stops: for every fuel bound it is still running. -/
theorem C6_amended (vidx aidx : Nat) (s : FeederState) (n : Nat) (h : s.input = []) :
    feeder_run vidx aidx (n + 1) s
      = Except.ok (some ⟨[], s.video.endOfFile, s.audio.endOfFile⟩) ∧
    (s.video.endOfFile).ended = true ∧ (s.audio.endOfFile).ended = true := by
  cases s with
  | mk inp v a =>
      simp only at h
      subst h
      refine ⟨?_, rfl, rfl⟩
      have hbody : buffer_thread_body vidx aidx ⟨[], v, a⟩
          = Except.ok (some ⟨[], v.endOfFile, a.endOfFile⟩) := rfl
      have hfix : feeder_run vidx aidx n ⟨[], v.endOfFile, a.endOfFile⟩
          = Except.ok (some ⟨[], v.endOfFile, a.endOfFile⟩) :=
        feeder_run_fixpoint vidx aidx n v.buffer a.buffer
      simp [feeder_run, hbody, hfix]

/-- Witness for the amended claim C6 at a concrete exhausted state. -/
theorem C6_amended_witness :
    feeder_run 0 1 3 ⟨[], PlayerBuffer.new, PlayerBuffer.new⟩
      = Except.ok (some ⟨[], PlayerBuffer.new.endOfFile, PlayerBuffer.new.endOfFile⟩) ∧
    (PlayerBuffer.new.endOfFile).ended = true ∧
    (PlayerBuffer.new.endOfFile).ended = true :=
  C6_amended 0 1 ⟨[], PlayerBuffer.new, PlayerBuffer.new⟩ 2 rfl

/-! ## Claim C8 -/

/-- Claim C8 counterexample: after mark-end-of-stream on the empty queue,
has_ended is true, yet a subsequent push — which nothing prevents — makes
the queue non-empty and has_ended false again, contradicting both the
monotonicity of the drained state and the claim that no push after
end-of-stream makes the queue non-empty. -/
theorem C8_counterexample :
    (PlayerBuffer.new.endOfFile).has_ended = true ∧
    ((PlayerBuffer.new.endOfFile).push_packet ⟨0⟩).has_ended = false ∧
    ((PlayerBuffer.new.endOfFile).push_packet ⟨0⟩).buffer ≠ [] := by
  refine ⟨rfl, rfl, by simp [PlayerBuffer.push_packet, PlayerBuffer.new,
    PlayerBuffer.endOfFile]⟩

/-- Claim C8 amended: has_ended is true exactly when the queue is empty and
the ended flag is set, but the queue itself does not prevent pushes after
end-of-stream; drained-ness is monotone only along operation sequences that
contain no push — any pop or mark-end-of-stream preserves it, while a push
refutes it. -/
theorem C8_amended :
    (∀ b : PlayerBuffer, b.has_ended = (b.buffer.isEmpty && b.ended)) ∧
    (∀ (b : PlayerBuffer) (ops : List BufOp),
        b.has_ended = true → (∀ op ∈ ops, op.isPush = false) →
        (runOps b ops).has_ended = true) := by
  constructor
  · intro b
    rfl
  · intro b ops h1 h2
    induction ops generalizing b with
    | nil => simpa [runOps] using h1
    | cons op ops ih =>
        have hb : b.buffer = [] ∧ b.ended = true := by
          cases hbuf : b.buffer with
          | nil =>
              refine ⟨rfl, ?_⟩
              simpa [PlayerBuffer.has_ended, hbuf] using h1
          | cons q qs =>
              exfalso
              simp [PlayerBuffer.has_ended, hbuf] at h1
        have hop : op.isPush = false := h2 op (by simp)
        have hstep : (BufOp.apply b op).has_ended = true := by
          cases op with
          | push p => simp [BufOp.isPush] at hop
          | pop =>
              simp [BufOp.apply, PlayerBuffer.pop_front, hb.1, PlayerBuffer.has_ended,
                hb.2]
          | markEOS =>
              simp [BufOp.apply, PlayerBuffer.endOfFile, PlayerBuffer.has_ended, hb.1]
        have hrest : ∀ op2 ∈ ops, BufOp.isPush op2 = false := by
          intro op2 hmem
          exact h2 op2 (by simp [hmem])
        have := ih (BufOp.apply b op) hstep hrest
        simpa [runOps] using this

/-- Witness for the amended claim C8: from a drained queue, a pop followed
by a redundant mark-end-of-stream leaves it drained. -/
theorem C8_amended_witness :
    (runOps ⟨[], true⟩ [BufOp.pop, BufOp.markEOS]).has_ended = true :=
  C8_amended.2 ⟨[], true⟩ [BufOp.pop, BufOp.markEOS] rfl (by decide)

/-! ## Claim C9 -/

/-- Claim C9 counterexample: a compressed unit with the unknown stream
index 2 (video 0, audio 1) makes the feeder run abort with the
unrecognized-stream panic — yet the session's tick loop, which never joins
the worker threads, exits via its normal return path (both rendering
buffers empty) even when handed exactly that feeder failure: the session is
not aborted by the configuration error, contradicting the claim. -/
theorem C9_counterexample :
    feeder_run 0 1 1 ⟨[(2, ⟨5⟩)], PlayerBuffer.new, PlayerBuffer.new⟩
      = Except.error unknownStreamMsg ∧
    session_tick_exit (Except.error unknownStreamMsg) false
        ⟨[], [], PlayerBuffer.new, PlayerBuffer.new⟩
      = some SessionExit.returnedNormally := by
  refine ⟨rfl, rfl⟩

/-- Claim C9 amended: on a feeder iteration that pulls a compressed unit, a
unit whose stream index equals the video index is pushed onto the video
compressed queue, one whose index equals the audio index onto the audio
compressed queue, and any other index hits the panic arm — a fatal,
surfaced error (the unrecognized-stream message) on which the feeder run
aborts instead of silently dropping the unit. The panic terminates only the
feeder thread, not the session: the tick loop's exit decision is the same
whatever the feeder's outcome, its only exits being cancellation and the
normal return. The video and audio stream indices of an asset are
distinct. -/
theorem C9_amended (vidx aidx idx : Nat) (p : Packet) (rest : List (Nat × Packet))
    (v a : PlayerBuffer) (hva : vidx ≠ aidx) :
    (idx = vidx →
      buffer_thread_body vidx aidx ⟨(idx, p) :: rest, v, a⟩
        = Except.ok (some ⟨rest, v.push_packet p, a⟩)) ∧
    (idx = aidx →
      buffer_thread_body vidx aidx ⟨(idx, p) :: rest, v, a⟩
        = Except.ok (some ⟨rest, v, a.push_packet p⟩)) ∧
    (idx ≠ vidx → idx ≠ aidx →
      buffer_thread_body vidx aidx ⟨(idx, p) :: rest, v, a⟩
          = Except.error unknownStreamMsg ∧
      ∀ n, feeder_run vidx aidx (n + 1) ⟨(idx, p) :: rest, v, a⟩
          = Except.error unknownStreamMsg) ∧
    (∀ (f1 f2 : Except String (Option FeederState)) (quit : Bool) (s : SessionState),
      session_tick_exit f1 quit s = session_tick_exit f2 quit s) := by
  refine ⟨?_, ?_, ?_, ?_⟩
  · intro h
    subst h
    simp [buffer_thread_body]
  · intro h
    subst h
    simp [buffer_thread_body, Ne.symm hva]
  · intro h1 h2
    have hbody : buffer_thread_body vidx aidx ⟨(idx, p) :: rest, v, a⟩
        = Except.error unknownStreamMsg := by
      simp [buffer_thread_body, h1, h2]
    exact ⟨hbody, fun n => by simp [feeder_run, hbody]⟩
  · intro f1 f2 quit s
    rfl

/-- Witness for the amended claim C9 at concrete indices (video 0, audio 1)
and a unit carrying the unknown index 2: the feeder panics rather than
dropping it, and the session tick decision ignores the feeder outcome. -/
theorem C9_amended_witness :
    ((2 : Nat) = 0 →
      buffer_thread_body 0 1 ⟨[(2, ⟨5⟩)], PlayerBuffer.new, PlayerBuffer.new⟩
        = Except.ok (some ⟨[], PlayerBuffer.new.push_packet ⟨5⟩, PlayerBuffer.new⟩)) ∧
    ((2 : Nat) = 1 →
      buffer_thread_body 0 1 ⟨[(2, ⟨5⟩)], PlayerBuffer.new, PlayerBuffer.new⟩
        = Except.ok (some ⟨[], PlayerBuffer.new, PlayerBuffer.new.push_packet ⟨5⟩⟩)) ∧
    ((2 : Nat) ≠ 0 → (2 : Nat) ≠ 1 →
      buffer_thread_body 0 1 ⟨[(2, ⟨5⟩)], PlayerBuffer.new, PlayerBuffer.new⟩
          = Except.error unknownStreamMsg ∧
      ∀ n, feeder_run 0 1 (n + 1) ⟨[(2, ⟨5⟩)], PlayerBuffer.new, PlayerBuffer.new⟩
          = Except.error unknownStreamMsg) ∧
    (∀ (f1 f2 : Except String (Option FeederState)) (quit : Bool) (s : SessionState),
      session_tick_exit f1 quit s = session_tick_exit f2 quit s) :=
  C9_amended 0 1 2 ⟨5⟩ [] PlayerBuffer.new PlayerBuffer.new (by decide)

/-! ## Claim C7 -/

/-- Claim C7 counterexample: a frame with pts 1 on a track with time base 1
has the spec deadline 1 second; at elapsed time exactly 1 second
(1000000000 ns) the spec contract (now - origin >= deadline) demands true,
but the code compares strictly and returns false. -/
theorem C7_counterexample :
    should_render_frame (some 1) 1 1000000000 = false ∧
    spec_should_present (some 1) 1 1000000000 = true := by
  constructor
  · have hf : ⌊((1 : Int) : ℚ) * 1 * 1000⌋ = (1000 : ℤ) := by
      rw [show ((1 : Int) : ℚ) * 1 * 1000 = ((1000 : ℤ) : ℚ) by norm_num]
      exact Int.floor_intCast 1000
    simp only [should_render_frame, f64_to_u64_sat, hf, gt_iff_lt,
      decide_eq_false_iff_not, not_lt]
    norm_num [Nat.min_def]
    omega
  · simp only [spec_should_present, ge_iff_le, decide_eq_true_eq]
    norm_num

/-- Claim C7 amended: the deadline is pts * time_base * 1000 truncated to
whole milliseconds by the saturating float-to-u64 cast, and the frame is
rendered exactly when the elapsed time strictly exceeds that deadline
(strict comparison, not at-or-after); a frame without pts is never
rendered. Stated for deadlines that are nonnegative and below the u64
saturation bound, where the truncation is the integer floor. -/
theorem C7_amended (p : Int) (tb : ℚ) (t : ℕ)
    (h0 : 0 ≤ (p : ℚ) * tb) (h1 : (p : ℚ) * tb * 1000 < 2 ^ 64 - 1) :
    (should_render_frame (some p) tb t = true ↔
      ⌊(p : ℚ) * tb * 1000⌋ * 1000000 < (t : Int)) ∧
    should_render_frame none tb t = false := by
  refine ⟨?_, rfl⟩
  have hq : (0 : ℚ) ≤ (p : ℚ) * tb * 1000 := mul_nonneg h0 (by norm_num)
  have hm0 : 0 ≤ ⌊(p : ℚ) * tb * 1000⌋ := Int.floor_nonneg.mpr hq
  have hmlt : ⌊(p : ℚ) * tb * 1000⌋ < 18446744073709551615 := by
    rw [Int.floor_lt]
    push_cast
    exact h1.trans_eq (by norm_num)
  show decide (t > min (Int.toNat ⌊(p : ℚ) * tb * 1000⌋) (2 ^ 64 - 1) * 1000000)
      = true ↔ _
  rw [decide_eq_true_eq, show (2 : ℕ) ^ 64 - 1 = 18446744073709551615 by norm_num]
  omega

/-- Witness for the amended claim C7 at pts 7, time base 1/2 and elapsed
time 10 seconds. -/
theorem C7_amended_witness :
    (0 ≤ ((7 : Int) : ℚ) * (1 / 2)) ∧
    (((7 : Int) : ℚ) * (1 / 2) * 1000 < 2 ^ 64 - 1) ∧
    ((should_render_frame (some 7) (1 / 2) 10000000000 = true ↔
        ⌊((7 : Int) : ℚ) * (1 / 2) * 1000⌋ * 1000000 < ((10000000000 : ℕ) : Int)) ∧
      should_render_frame none (1 / 2) 10000000000 = false) :=
  ⟨by norm_num, by norm_num,
    C7_amended 7 (1 / 2) 10000000000 (by norm_num) (by norm_num)⟩

/-! ## Claim C10 -/

/-- Claim C10 (confirmed): once a frame without a presentation timestamp sits
at the front of a decoded queue, every subsequent scheduler tick — whatever
elapsed times the clock reports — leaves the whole queue unchanged with that
frame still at the front, and no frame of that queue is ever presented
again. -/
theorem C10_undated_head_blocks (u : Frame) (rest : List Frame) (tb : ℚ)
    (ts : List ℕ) (h : u.pts = none) :
    rendering_run (u :: rest) tb ts = (u :: rest, []) := by
  induction ts with
  | nil => rfl
  | cons t ts ih =>
      have htick : rendering_tick (u :: rest) tb t = (u :: rest, none) :=
        rendering_tick_undated u rest tb t h
      simp [rendering_run, htick, ih]

/-- Witness for claim C10: an undated frame ahead of a long-overdue dated
frame, over three ticks at 1, 2 and 3 seconds: nothing is ever presented and
the queue never changes. -/
theorem C10_undated_head_blocks_witness :
    rendering_run [Frame.empty, ⟨some 0, 1⟩] 1 [1000000000, 2000000000, 3000000000]
      = ([Frame.empty, ⟨some 0, 1⟩], []) :=
  C10_undated_head_blocks Frame.empty [⟨some 0, 1⟩] 1
    [1000000000, 2000000000, 3000000000] rfl

end VideoPlayer
